import Mathlib

/-!
Verification of the pyoctopart client library (src/octopart.py) against its
natural-language specification.

The development shallowly embeds the Python source: Python runtime values
become the inductive `PyVal`; dictionaries become association lists keyed by
`String`; Python exceptions become `Except PyErr`; the HTTP transport is an
oracle argument of type `HttpResult`.  Every definition is translated from
the source file, not from the specification.
-/

set_option maxRecDepth 4000

/-- Python runtime values as they occur in this program.  `vobj cls attrs`
models an instance of class `cls` with attribute list `attrs` (the library's
domain objects `OctopartBrand`, `OctopartCategory`, `OctopartPart`). -/
inductive PyVal where
  | none
  | vbool (b : Bool)
  | vint (n : Int)
  | vstr (s : String)
  | vlist (xs : List PyVal)
  | vdict (xs : List (String × PyVal))
  | vobj (cls : String) (attrs : List (String × PyVal))

/-- Python exceptions that the embedded code can raise (other than
`OctopartException`, whose numeric code is tracked separately). -/
inductive PyErr where
  | keyError (k : String)
  | nameError (n : String)
  | attributeError (n : String)
  | typeError
  | indexError
  deriving DecidableEq, Repr

/-- Python truthiness (`if json_obj:`). -/
def truthy : PyVal → Bool
  | .none => false
  | .vbool b => b
  | .vint n => n != 0
  | .vstr s => s ≠ ""
  | .vlist xs => !xs.isEmpty
  | .vdict xs => !xs.isEmpty
  | .vobj _ _ => true

/-- Dict item assignment `d[k] = v`: replaces the value at an existing key,
otherwise adds the key. -/
def setItem : List (String × PyVal) → String → PyVal → List (String × PyVal)
  | [], k, v => [(k, v)]
  | (k', v') :: rest, k, v =>
      if k' == k then (k, v) :: rest else (k', v') :: setItem rest k v

/-- Dict subscript `d[k]` on a value: `KeyError` when the key is absent,
`TypeError` when the value is not a dict. -/
def pyItem (d : PyVal) (k : String) : Except PyErr PyVal :=
  match d with
  | .vdict xs =>
      match xs.lookup k with
      | some v => .ok v
      | Option.none => .error (.keyError k)
  | _ => .error .typeError

/-- Dict subscript on an association list (the dict already unwrapped). -/
def lookupE (xs : List (String × PyVal)) (k : String) : Except PyErr PyVal :=
  match xs.lookup k with
  | some v => .ok v
  | Option.none => .error (.keyError k)

/-- The value must be a dict (Python raises `TypeError` on subscripting /
`AttributeError` on `.keys()` otherwise; we fold both into `typeError`). -/
def asDict : PyVal → Except PyErr (List (String × PyVal))
  | .vdict xs => .ok xs
  | _ => .error .typeError

/-- Python iteration `for x in v`: lists yield their elements, dicts their
keys, strings their characters; other values raise `TypeError`. -/
def pyIter : PyVal → Except PyErr (List PyVal)
  | .vlist xs => .ok xs
  | .vdict xs => .ok (xs.map (fun p => .vstr p.1))
  | .vstr s => .ok (s.data.map (fun c => .vstr (String.mk [c])))
  | _ => .error .typeError

/-- The argument types used in the endpoint schemas: `StringType`, `IntType`,
`BooleanType`, `ListType`, `DictType` from the `types` module. -/
inductive ArgType where
  | string
  | int
  | bool
  | list
  | dict
  deriving DecidableEq, Repr

/-- The type test of `__validate_args`: for `StringType` the check is
`isinstance(args[key], basestring)`; for the other types it is exact
`type(args[key]) is arg_types[key]`. -/
def matchesType (v : PyVal) (t : ArgType) : Bool :=
  match t, v with
  | .string, .vstr _ => true
  | .string, _ => false
  | .int, .vint _ => true
  | .int, _ => false
  | .bool, .vbool _ => true
  | .bool, _ => false
  | .list, .vlist _ => true
  | .list, _ => false
  | .dict, .vdict _ => true
  | .dict, _ => false

/-- An `arg_ranges` entry: `intRange lo hi` models the Python list
`range(lo, hi)` (membership means `lo ≤ v < hi`); `strRange lo hi` models a
`(min, max)` pair for string lengths, `hi = none` standing for
`float("inf")`. -/
inductive ArgRange where
  | intRange (lo hi : Int)
  | strRange (lo : Nat) (hi : Option Nat)
  deriving DecidableEq, Repr

/-- The range test of `__validate_args` for one key that has a declared
range.  For `StringType` arguments the source checks
`len(args[key]) < arg_ranges[key][0] or len(args[key]) > arg_ranges[key][1]`
(error code 5); for other arguments it checks
`args[key] not in arg_ranges[key]` (error code 4).  No endpoint schema pairs
a string type with an `intRange` or a non-string type with a `strRange`; in
the unused combinations we keep the Python semantics of the membership /
length test as far as it is defined. -/
def rangeCheck (t : ArgType) (v : PyVal) (r : ArgRange) : Option Nat :=
  match t with
  | .string =>
      match v, r with
      | .vstr s, .strRange lo hi =>
          if s.length < lo || (match hi with | some h => decide (s.length > h) | Option.none => false)
          then some 5 else Option.none
      | _, _ => Option.none
  | _ =>
      match v, r with
      | .vint n, .intRange lo hi => if lo ≤ n ∧ n < hi then Option.none else some 4
      | _, _ => some 4

/-- The per-key body of the `for key in args_set` loop of `__validate_args`:
type check (error code 2), then range check when the key has a range.  The
fallback branches are unreachable once the subset check has passed, since
every key of `args_set` is then a key of both `args` and `arg_types`. -/
def checkKey (args : List (String × PyVal)) (arg_types : List (String × ArgType))
    (arg_ranges : List (String × ArgRange)) (k : String) : Option Nat :=
  match arg_types.lookup k, args.lookup k with
  | some t, some v =>
      if !matchesType v t then some 2
      else
        match arg_ranges.lookup k with
        | some r => rangeCheck t v r
        | Option.none => Option.none
  | _, _ => Option.none

/-- `Octopart.__validate_args`: returns the `OctopartException` error code
raised (1 unrecognized key, 2 malformed value, 5 string length out of range,
4 numeric value out of range, 3 duplicate argument), or `none` when the
arguments validate.  Keys are visited in first-occurrence order (the source
iterates the unordered `set(args.keys())`; every claim below supplies at
most one offending key, so the visit order is immaterial). -/
def validate_args (args : List (String × PyVal)) (arg_types : List (String × ArgType))
    (arg_ranges : List (String × ArgRange)) : Option Nat :=
  let args_set := (args.map Prod.fst).eraseDups
  if !args_set.all (fun k => (arg_types.map Prod.fst).contains k) then some 1
  else
    match args_set.findSome? (checkKey args arg_types arg_ranges) with
    | some c => some c
    | Option.none =>
        if args_set.length ≠ (args.map Prod.fst).length then some 3 else Option.none

/-- The alias table of `Octopart.__translate_periods`, verbatim from the
source. -/
def translation : List (String × String) :=
  [("drilldown_include", "drilldown.include"),
   ("drilldown_fieldname", "drilldown.fieldname"),
   ("drilldown_facets_prefix", "drilldown.facets.prefix"),
   ("drilldown_facets_start", "drilldown.facets.start"),
   ("drilldown_facets_limit", "drilldown.facets.limit"),
   ("drilldown_facets_sortby", "drilldown.facets.sortby"),
   ("drilldown_facets_include_hits", "drilldown.facets.include_hits"),
   ("optimize_return_stubs", "optimize.return_stubs"),
   ("optimize_hide_datasheets", "optimize.hide_datasheets"),
   ("optimize_hide_descriptions", "optimize.hide_descriptions"),
   ("optimize_hide_images", "optimize.hide_images"),
   ("optimize_hide_hide_offers", "optimize.hide_hide_offers"),
   ("optimize_hide_hide_unauthorized_offers", "optimize.hide_hide_unauthorized_offers"),
   ("optimize_hide_specs", "optimize.hide_specs")]

mutual

/-- The per-entry body of `Octopart.__translate_periods`: dict values are
translated recursively, list values have their dict elements translated
(the source mutates those dicts in place), and the key is rewritten through
the alias table when it occurs there.  The source pops the old key and
assigns the new one on the dict it mutates; on the association-list model
this is a keyed rename in place. -/
def translatePairs : List (String × PyVal) → List (String × PyVal)
  | [] => []
  | (k, v) :: rest =>
      let v' := match v with
        | .vdict xs => .vdict (translatePairs xs)
        | .vlist ys => .vlist (translateList ys)
        | w => w
      ((translation.lookup k).getD k, v') :: translatePairs rest

/-- List elements of dict type are translated in place; other elements are
left alone (`for a in args[key]: if type(a) is DictType: ...`). -/
def translateList : List PyVal → List PyVal
  | [] => []
  | .vdict xs :: rest => .vdict (translatePairs xs) :: translateList rest
  | v :: rest => v :: translateList rest

end

/-- `Octopart.__translate_periods` on a dict value. -/
def translateVal : PyVal → PyVal
  | .vdict xs => .vdict (translatePairs xs)
  | v => v

/-- `OctopartBrand.new_from_dict` followed by `OctopartBrand.__init__`:
reads `id`, `displayname` and `homepage_url` (raising `KeyError` when one is
absent) and builds the instance. -/
def OctopartBrand.new_from_dict (d : PyVal) : Except PyErr PyVal := do
  let i ← pyItem d "id"
  let dn ← pyItem d "displayname"
  let hp ← pyItem d "homepage_url"
  pure (.vobj "OctopartBrand" [("id", i), ("displayname", dn), ("homepage_url", hp)])

/-- `OctopartCategory.new_from_dict` followed by the constructor; `ancestors`
defaults to `[]` via `dict.get`, every other field is a plain subscript. -/
def OctopartCategory.new_from_dict (d : PyVal) : Except PyErr PyVal := do
  let i ← pyItem d "id"
  let pid ← pyItem d "parent_id"
  let nn ← pyItem d "nodename"
  let im ← pyItem d "images"
  let ch ← pyItem d "children_ids"
  let an ← pyItem d "ancestor_ids"
  let xs ← asDict d
  let anc := (xs.lookup "ancestors").getD (.vlist [])
  let np ← pyItem d "num_parts"
  pure (.vobj "OctopartCategory"
    [("id", i), ("parent_id", pid), ("nodename", nn), ("images", im),
     ("children_ids", ch), ("ancestor_ids", an), ("ancestors", anc), ("num_parts", np)])

/-- `OctopartPartAttribute.__init__`: its first statement is
`self.fieldname = fieldanme`, and `fieldanme` is bound nowhere, so the
constructor raises `NameError` on every input before assigning anything. -/
def OctopartPartAttribute.init (fieldname displayname type_ metadata : PyVal) :
    Except PyErr PyVal :=
  let _ := (fieldname, displayname, type_, metadata)
  .error (.nameError "fieldanme")

/-- `OctopartPartAttribute.new_from_dict`: reads `fieldname`, `displayname`,
`type` (subscripts) and `metadata` (via `dict.get` with default `{}`), then
calls the constructor, which always raises. -/
def OctopartPartAttribute.new_from_dict (d : PyVal) : Except PyErr PyVal := do
  let fn ← pyItem d "fieldname"
  let dn ← pyItem d "displayname"
  let ty ← pyItem d "type"
  let xs ← asDict d
  let md := (xs.lookup "metadata").getD (.vdict [])
  OctopartPartAttribute.init fn dn ty md

/-- The `update_ts` handling inside `OctopartPart.__init__`.  The source
strips a trailing `Z` and then calls `datetime.strptime(...)`; the module
was imported as `import datetime`, so the attribute access
`datetime.strptime` raises `AttributeError` whenever it is reached.  The
indexing `offer["update_ts"][-1]` raises `IndexError` on an empty sequence
and `TypeError` on an unindexable value before that point. -/
def processUpdateTs (v : PyVal) : Except PyErr Unit :=
  match v with
  | .vstr s => if s.isEmpty then .error .indexError else .error (.attributeError "strptime")
  | .vlist l => if l.isEmpty then .error .indexError else .error (.attributeError "strptime")
  | _ => .error .typeError

/-- One iteration of the offers loop of `OctopartPart.__init__`: the
supplier sub-dict is converted to an `OctopartBrand` in place, then an
`update_ts` entry (when present) is passed to the broken timestamp
conversion. -/
def processOffer (o : PyVal) : Except PyErr PyVal := do
  let xs ← asDict o
  let sup ← lookupE xs "supplier"
  let xs ← (match sup with
    | .vdict mm => do
        let b ← OctopartBrand.new_from_dict (.vdict mm)
        pure (setItem xs "supplier" b)
    | _ => pure xs)
  match xs.lookup "update_ts" with
  | Option.none => pure (.vdict xs)
  | some ts => do
      let _ ← processUpdateTs ts
      pure (.vdict xs)

/-- One iteration of the specs loop of `OctopartPart.__init__`: a dict-typed
`attribute` entry is converted through `OctopartPartAttribute.new_from_dict`
(which always raises). -/
def processSpec (s : PyVal) : Except PyErr PyVal := do
  let xs ← asDict s
  let attr ← lookupE xs "attribute"
  match attr with
  | .vdict mm => do
      let a ← OctopartPartAttribute.new_from_dict (.vdict mm)
      pure (.vdict (setItem xs "attribute" a))
  | _ => pure (.vdict xs)

/-- Iterate a processing step over the value of an optional collection field
(`part_dict.get("offers", [])` and the matching specs loop); the processed
elements replace the originals, as the source mutates them in place. -/
def processEach (step : PyVal → Except PyErr PyVal) (v : PyVal) : Except PyErr PyVal := do
  let items ← pyIter v
  let items' ← items.mapM step
  pure (.vlist items')

/-- `OctopartPart.__init__`: converts the `manufacturer` sub-dict to an
`OctopartBrand`, runs the offers and specs loops, then assigns every field
in source order (`dict.get` defaults included).  The result is the instance
attribute list; any Python exception on the way is propagated. -/
def OctopartPart.init (d : PyVal) : Except PyErr PyVal := do
  let xs0 ← asDict d
  let m ← lookupE xs0 "manufacturer"
  let xs ← (match m with
    | .vdict mm => do
        let b ← OctopartBrand.new_from_dict (.vdict mm)
        pure (setItem xs0 "manufacturer" b)
    | _ => pure xs0)
  let offers' ← processEach processOffer ((xs.lookup "offers").getD (.vlist []))
  let xs := if (xs.lookup "offers").isSome then setItem xs "offers" offers' else xs
  let specs' ← processEach processSpec ((xs.lookup "specs").getD (.vlist []))
  let xs := if (xs.lookup "specs").isSome then setItem xs "specs" specs' else xs
  let uid ← lookupE xs "uid"
  let mpn ← lookupE xs "mpn"
  let manufacturer ← lookupE xs "manufacturer"
  let detail_url ← lookupE xs "detail_url"
  pure (.vobj "OctopartPart"
    [("uid", uid), ("mpn", mpn), ("manufacturer", manufacturer), ("detail_url", detail_url),
     ("avg_price", (xs.lookup "avg_price").getD .none),
     ("avg_avail", (xs.lookup "avg_avail").getD .none),
     ("market_status", (xs.lookup "market_status").getD .none),
     ("num_suppliers", (xs.lookup "num_suppliers").getD .none),
     ("num_authsuppliers", (xs.lookup "num_authsuppliers").getD .none),
     ("short_description", (xs.lookup "short_description").getD (.vstr "")),
     ("category_ids", (xs.lookup "category_ids").getD (.vlist [])),
     ("images", (xs.lookup "images").getD (.vlist [])),
     ("datasheets", (xs.lookup "datasheets").getD (.vlist [])),
     ("descriptions", (xs.lookup "descriptions").getD (.vlist [])),
     ("hyperlinks", (xs.lookup "hyperlinks").getD (.vdict [])),
     ("offers", (xs.lookup "offers").getD (.vlist [])),
     ("specs", (xs.lookup "specs").getD (.vlist []))])

/-- The transport oracle: the parsed JSON body of a successful GET, or the
HTTP status of an `urllib2.HTTPError`. -/
inductive HttpResult where
  | ok (json : PyVal)
  | httpError (code : Nat)

/-- What an endpoint method call does, as observed by the caller: return
`None`, return a value, raise an `OctopartException` with the given code,
re-raise an HTTP error (`raise e` branch), or escape with a plain Python
exception. -/
inductive Outcome where
  | retNone
  | ret (v : PyVal)
  | exc (code : Nat)
  | httpRaise (code : Nat)
  | pyErr (e : PyErr)

/-- The shared `except urllib2.HTTPError` ladder of the endpoint methods:
404 is handled per endpoint (`on404`), 503 raises `OctopartException` code
8, anything else is re-raised; a successful body is handed to the
endpoint's result mapping. -/
def handleHttp (resp : HttpResult) (on404 : Outcome) (mapOk : PyVal → Outcome) : Outcome :=
  match resp with
  | .httpError c => if c = 404 then on404 else if c = 503 then .exc 8 else .httpRaise c
  | .ok j => mapOk j

/-- Collapse a result-mapping computation that may raise a Python
exception. -/
def outcomeOf (e : Except PyErr Outcome) : Outcome :=
  match e with
  | .ok o => o
  | .error er => .pyErr er

/-- Python integer coercion for the `+` in the bom/match line check (only
int and bool values add as integers; anything else raises `TypeError`). -/
def pyToInt (v : PyVal) : Except PyErr Int :=
  match v with
  | .vint n => .ok n
  | .vbool b => .ok (if b then 1 else 0)
  | _ => .error .typeError

/-- Schema of `categories_get`. -/
def categories_get_types : List (String × ArgType) := [("id", .int)]

/-- `Octopart.categories_get`: validate `{id: id}`, then GET; 404 returns
`None`, 503 raises code 8; a truthy body becomes an `OctopartCategory`. -/
def categories_get (i : PyVal) (resp : HttpResult) : Outcome :=
  match validate_args [("id", i)] categories_get_types [] with
  | some _ => .retNone
  | Option.none =>
      handleHttp resp .retNone (fun j =>
        if truthy j then outcomeOf ((OctopartCategory.new_from_dict j).map .ret)
        else .retNone)

/-- Schema of `categories_get_multi`. -/
def categories_get_multi_types : List (String × ArgType) := [("ids", .list)]

/-- `Octopart.categories_get_multi`: 404 raises code 7, 503 code 8; the body
list is mapped through `OctopartCategory.new_from_dict`. -/
def categories_get_multi (ids : PyVal) (resp : HttpResult) : Outcome :=
  match validate_args [("ids", ids)] categories_get_multi_types [] with
  | some _ => .retNone
  | Option.none =>
      handleHttp resp (.exc 7) (fun j =>
        outcomeOf (do
          if truthy j then
            let items ← pyIter j
            let cs ← items.mapM OctopartCategory.new_from_dict
            pure (.ret (.vlist cs))
          else pure (.ret (.vlist []))))

/-- Schema of `categories_search`. -/
def categories_search_types : List (String × ArgType) :=
  [("q", .string), ("start", .int), ("limit", .int), ("ancestor_id", .int)]

/-- `Octopart.categories_search`: keyword arguments are validated as
supplied (this endpoint does not call `__translate_periods` and declares no
ranges); 404 raises code 7, 503 code 8; results become
`[category, highlight]` pairs. -/
def categories_search (args : List (String × PyVal)) (resp : HttpResult) : Outcome :=
  match validate_args args categories_search_types [] with
  | some _ => .retNone
  | Option.none =>
      handleHttp resp (.exc 7) (fun j =>
        outcomeOf (do
          if truthy j then
            let results ← pyItem j "results"
            let rs ← pyIter results
            let cs ← rs.mapM (fun r => do
              let item ← pyItem r "item"
              let c ← OctopartCategory.new_from_dict item
              let hl ← pyItem r "highlight"
              pure (PyVal.vlist [c, hl]))
            pure (.ret (.vlist cs))
          else pure (.ret (.vlist []))))

/-- Schema of `parts_get`. -/
def parts_get_types : List (String × ArgType) :=
  [("uid", .int),
   ("optimize.hide_datasheets", .bool),
   ("optimize.hide_descriptions", .bool),
   ("optimize.hide_images", .bool),
   ("optimize.hide_hide_offers", .bool),
   ("optimize.hide_hide_unauthorized_offers", .bool),
   ("optimize.hide_specs", .bool)]

/-- `Octopart.parts_get`: keyword args go through `__translate_periods`,
then `args["uid"] = uid`; 404 returns `None`, 503 raises code 8; a truthy
body is fed to the `OctopartPart` constructor. -/
def parts_get (uid : PyVal) (kwargs : List (String × PyVal)) (resp : HttpResult) : Outcome :=
  let args := setItem (translatePairs kwargs) "uid" uid
  match validate_args args parts_get_types [] with
  | some _ => .retNone
  | Option.none =>
      handleHttp resp .retNone (fun j =>
        if truthy j then outcomeOf ((OctopartPart.init j).map .ret) else .retNone)

/-- Schema of `parts_get_multi` (`uids` is a comma-joined string). -/
def parts_get_multi_types : List (String × ArgType) :=
  [("uids", .string),
   ("optimize.hide_datasheets", .bool),
   ("optimize.hide_descriptions", .bool),
   ("optimize.hide_images", .bool),
   ("optimize.hide_hide_offers", .bool),
   ("optimize.hide_hide_unauthorized_offers", .bool),
   ("optimize.hide_specs", .bool)]

/-- `Octopart.parts_get_multi`: like `parts_get`, but 404 raises code 7 and
the body is a list of part dicts. -/
def parts_get_multi (uids : PyVal) (kwargs : List (String × PyVal)) (resp : HttpResult) :
    Outcome :=
  let args := setItem (translatePairs kwargs) "uids" uids
  match validate_args args parts_get_multi_types [] with
  | some _ => .retNone
  | Option.none =>
      handleHttp resp (.exc 7) (fun j =>
        outcomeOf (do
          if truthy j then
            let items ← pyIter j
            let ps ← items.mapM OctopartPart.init
            pure (.ret (.vlist ps))
          else pure (.ret (.vlist []))))

/-- Schema of `parts_search`. -/
def parts_search_types : List (String × ArgType) :=
  [("q", .string), ("start", .int), ("limit", .int),
   ("filters", .list), ("rangedfilters", .list), ("sortby", .list),
   ("drilldown.include", .bool),
   ("drilldown.fieldname", .string),
   ("drilldown.facets.prefix", .string),
   ("drilldown.facets.start", .int),
   ("drilldown.facets.limit", .int),
   ("drilldown.facets.sortby", .string),
   ("drilldown.facets.include_hits", .bool),
   ("optimize.hide_datasheets", .bool),
   ("optimize.hide_descriptions", .bool),
   ("optimize.hide_images", .bool),
   ("optimize.hide_hide_offers", .bool),
   ("optimize.hide_hide_unauthorized_offers", .bool),
   ("optimize.hide_specs", .bool)]

/-- Ranges of `parts_search`: `range(1001)`, `range(0, 101)`, `range(1001)`,
`range(101)`. -/
def parts_search_ranges : List (String × ArgRange) :=
  [("start", .intRange 0 1001), ("limit", .intRange 0 101),
   ("drilldown.facets.start", .intRange 0 1001),
   ("drilldown.facets.limit", .intRange 0 101)]

/-- Result mapping of `parts_search`: `[part, highlight]` pairs, plus the
drilldown list when `args.get("drilldown.include")` is truthy (each drill's
`attribute` is rebuilt through `OctopartPartAttribute.new_from_dict`).  The
returned tuple is modelled as a two-element list. -/
def parts_search_map (args : List (String × PyVal)) (j : PyVal) : Except PyErr Outcome := do
  if truthy j then
    let results ← pyItem j "results"
    let rs ← pyIter results
    let parts ← rs.mapM (fun r => do
      let item ← pyItem r "item"
      let p ← OctopartPart.init item
      let hl ← pyItem r "highlight"
      pure (PyVal.vlist [p, hl]))
    let dd ← (if truthy ((args.lookup "drilldown.include").getD .none) then do
        let drills ← pyItem j "drilldown"
        let ds ← pyIter drills
        ds.mapM (fun drill => do
          let attr ← pyItem drill "attribute"
          let a ← OctopartPartAttribute.new_from_dict attr
          let xs ← asDict drill
          pure (PyVal.vdict (setItem xs "attribute" a)))
      else pure [])
    pure (.ret (.vlist [.vlist parts, .vlist dd]))
  else pure (.ret (.vlist [.vlist [], .vlist []]))

/-- `Octopart.parts_search`: keyword args go through `__translate_periods`
and are validated against the schema and ranges; 404 raises code 7, 503
code 8. -/
def parts_search (kwargs : List (String × PyVal)) (resp : HttpResult) : Outcome :=
  let args := translatePairs kwargs
  match validate_args args parts_search_types parts_search_ranges with
  | some _ => .retNone
  | Option.none => handleHttp resp (.exc 7) (fun j => outcomeOf (parts_search_map args j))

/-- Schema of `parts_suggest`. -/
def parts_suggest_types : List (String × ArgType) := [("q", .string), ("limit", .int)]

/-- Ranges of `parts_suggest`: `q` is a `(2, float("inf"))` length pair,
`limit` is `range(0, 11)`. -/
def parts_suggest_ranges : List (String × ArgRange) :=
  [("q", .strRange 2 Option.none), ("limit", .intRange 0 11)]

/-- `Octopart.parts_suggest`: `args["q"] = q`, validate, GET; 404 raises
code 7, 503 code 8; the `results` list is mapped through the `OctopartPart`
constructor. -/
def parts_suggest (q : PyVal) (kwargs : List (String × PyVal)) (resp : HttpResult) : Outcome :=
  let args := setItem kwargs "q" q
  match validate_args args parts_suggest_types parts_suggest_ranges with
  | some _ => .retNone
  | Option.none =>
      handleHttp resp (.exc 7) (fun j =>
        outcomeOf (do
          if truthy j then
            let results ← pyItem j "results"
            let rs ← pyIter results
            let ps ← rs.mapM OctopartPart.init
            pure (.ret (.vlist ps))
          else pure (.ret (.vlist []))))

/-- Schema of `parts_match`. -/
def parts_match_types : List (String × ArgType) :=
  [("manufacturer_name", .string), ("mpn", .string)]

/-- `Octopart.parts_match`: validate the two strings, GET; 404 raises code
7, 503 code 8; a truthy body is returned verbatim. -/
def parts_match (manufacturer_name mpn : PyVal) (resp : HttpResult) : Outcome :=
  match validate_args [("manufacturer_name", manufacturer_name), ("mpn", mpn)]
      parts_match_types [] with
  | some _ => .retNone
  | Option.none =>
      handleHttp resp (.exc 7) (fun j => if truthy j then .ret j else .retNone)

/-- Schema of `partattributes_get`. -/
def partattributes_get_types : List (String × ArgType) := [("fieldname", .string)]

/-- `Octopart.partattributes_get`: 404 returns `None`, 503 raises code 8; a
truthy body is fed to `OctopartPartAttribute.new_from_dict` (which always
raises `NameError`). -/
def partattributes_get (fieldname : PyVal) (resp : HttpResult) : Outcome :=
  match validate_args [("fieldname", fieldname)] partattributes_get_types [] with
  | some _ => .retNone
  | Option.none =>
      handleHttp resp .retNone (fun j =>
        if truthy j then outcomeOf ((OctopartPartAttribute.new_from_dict j).map .ret)
        else .retNone)

/-- Schema of `partattributes_get_multi`. -/
def partattributes_get_multi_types : List (String × ArgType) := [("fieldnames", .list)]

/-- `Octopart.partattributes_get_multi`: 404 raises code 7, 503 code 8; the
body list is mapped through `OctopartPartAttribute.new_from_dict`. -/
def partattributes_get_multi (fieldnames : PyVal) (resp : HttpResult) : Outcome :=
  match validate_args [("fieldnames", fieldnames)] partattributes_get_multi_types [] with
  | some _ => .retNone
  | Option.none =>
      handleHttp resp (.exc 7) (fun j =>
        outcomeOf (do
          if truthy j then
            let items ← pyIter j
            let as_ ← items.mapM OctopartPartAttribute.new_from_dict
            pure (.ret (.vlist as_))
          else pure (.ret (.vlist []))))

/-- Schema of `bom_match` (outer call). -/
def bom_match_types : List (String × ArgType) :=
  [("lines", .list),
   ("optimize.return_stubs", .bool),
   ("optimize.hide_datasheets", .bool),
   ("optimize.hide_descriptions", .bool),
   ("optimize.hide_images", .bool),
   ("optimize.hide_hide_offers", .bool),
   ("optimize.hide_hide_unauthorized_offers", .bool),
   ("optimize.hide_specs", .bool)]

/-- Per-line schema of `bom_match`. -/
def lines_arg_types : List (String × ArgType) :=
  [("q", .string), ("mpn", .string), ("manufacturer", .string), ("sku", .string),
   ("supplier", .string), ("mpn_or_sku", .string), ("start", .int), ("limit", .int),
   ("reference", .string)]

/-- Per-line ranges of `bom_match`: `limit` is `range(21)`. -/
def lines_arg_ranges : List (String × ArgRange) := [("limit", .intRange 0 21)]

/-- The per-line validation of `bom_match`: first `__validate_args` with the
line schema, then the required-field check (`{"reference"}` must be a subset
of the line's keys, error code 0), then the line-limit check.  The source
computes `line.get("start", 0) + line.get("match", 0)` — it reads the key
`"match"`, not `"limit"` — and raises error code 6 when the sum exceeds
100. -/
def bomLineCheck (line : PyVal) : Except PyErr (Option Nat) := do
  let xs ← asDict line
  match validate_args xs lines_arg_types lines_arg_ranges with
  | some c => pure (some c)
  | Option.none =>
      if !((xs.map Prod.fst).contains "reference") then pure (some 0)
      else do
        let s ← pyToInt ((xs.lookup "start").getD (.vint 0))
        let m ← pyToInt ((xs.lookup "match").getD (.vint 0))
        if s + m > 100 then pure (some 6) else pure Option.none

/-- The `for line in lines` loop of `bom_match`: the first line that raises
an `OctopartException` makes the whole call return `None` before any
request. -/
def bomCheckLines : List PyVal → Except PyErr (Option Nat)
  | [] => .ok Option.none
  | l :: rest => do
      match ← bomLineCheck l with
      | some c => pure (some c)
      | Option.none => bomCheckLines rest

/-- Result mapping of `bom_match`.  The items loop appends
`OctopartPart(part)`, but no variable `part` is bound in `bom_match`, so any
result with a non-empty `items` list raises `NameError`. -/
def bom_match_map (j : PyVal) : Except PyErr Outcome := do
  if truthy j then
    let results ← pyItem j "results"
    let rs ← pyIter results
    let out ← rs.mapM (fun result => do
      let items ← pyItem result "items"
      let its ← pyIter items
      let conv ← its.mapM (fun _ => (Except.error (.nameError "part") : Except PyErr PyVal))
      let xs ← asDict result
      let ref := (xs.lookup "reference").getD (.vstr "")
      let st ← pyItem result "status"
      pure (PyVal.vdict [("items", .vlist conv), ("reference", ref), ("status", st)]))
    pure (.ret (.vlist out))
  else pure (.ret (.vlist []))

/-- `Octopart.bom_match`: keyword args go through `__translate_periods`,
then `args["lines"] = lines`; every line is validated first (any failure
returns `None` with no request), then the outer args; 404 raises code 7,
503 code 8. -/
def bom_match (lines : List PyVal) (kwargs : List (String × PyVal)) (resp : HttpResult) :
    Outcome :=
  let args := setItem (translatePairs kwargs) "lines" (.vlist lines)
  match bomCheckLines lines with
  | .error e => .pyErr e
  | .ok (some _) => .retNone
  | .ok Option.none =>
      match validate_args args bom_match_types [] with
      | some _ => .retNone
      | Option.none => handleHttp resp (.exc 7) (fun j => outcomeOf (bom_match_map j))

/-- Whether a string contains a space character. -/
def hasSpace (s : String) : Bool := decide (' ' ∈ s.data)

/-- `sep.join(strings)`: the string-join used for both the query-string
concatenation (`"&".join(arg_strings)`) and the JSON separators. -/
def joinSep (sep : String) : List String → String
  | [] => ""
  | [s] => s
  | s :: rest => s ++ sep ++ joinSep sep rest

/-- The escape applied by `json.dumps` to one string character (the cases
relevant to this development; `ensure_ascii` handling of non-ASCII
characters is outside the character sets the claims use). -/
def escChar (c : Char) : List Char :=
  if c = '\\' then ['\\', '\\']
  else if c = '"' then ['\\', '"']
  else if c = '\n' then ['\\', 'n']
  else if c = '\t' then ['\\', 't']
  else if c = '\r' then ['\\', 'r']
  else [c]

/-- String-body escaping of `json.dumps`. -/
def jsonEscape (s : String) : String := String.mk (s.data.map escChar).flatten

mutual

/-- `json.dumps(val, separators=(",", ":"))`: compact JSON serialization.
Values that are not JSON-serializable (class instances) raise `TypeError`,
as `json.dumps` does. -/
def dumpsStr : PyVal → Except PyErr String
  | .none => .ok "null"
  | .vbool b => .ok (if b then "true" else "false")
  | .vint n => .ok (toString n)
  | .vstr s => .ok ("\"" ++ jsonEscape s ++ "\"")
  | .vlist xs => do
      let ps ← dumpsList xs
      .ok ("[" ++ joinSep "," ps ++ "]")
  | .vdict xs => do
      let ps ← dumpsPairs xs
      .ok ("\x7b" ++ joinSep "," ps ++ "\x7d")
  | .vobj _ _ => .error .typeError

/-- Serialize the elements of a JSON array. -/
def dumpsList : List PyVal → Except PyErr (List String)
  | [] => .ok []
  | v :: vs => do
      let s ← dumpsStr v
      let rest ← dumpsList vs
      .ok (s :: rest)

/-- Serialize the members of a JSON object with the compact `":"`
separator. -/
def dumpsPairs : List (String × PyVal) → Except PyErr (List String)
  | [] => .ok []
  | (k, v) :: vs => do
      let s ← dumpsStr v
      let rest ← dumpsPairs vs
      .ok (("\"" ++ jsonEscape k ++ "\":" ++ s) :: rest)

end

mutual

/-- Python `repr` of the values this program can hold (object identity
addresses abbreviated; only ever reached for values no endpoint schema
admits). -/
def pyRepr : PyVal → String
  | .none => "None"
  | .vbool b => if b then "True" else "False"
  | .vint n => toString n
  | .vstr s => "\x27" ++ s ++ "\x27"
  | .vlist xs => "[" ++ joinSep ", " (pyReprList xs) ++ "]"
  | .vdict xs => "\x7b" ++ joinSep ", " (pyReprPairs xs) ++ "\x7d"
  | .vobj cls _ => "<" ++ cls ++ " object>"

/-- Reprs of list elements. -/
def pyReprList : List PyVal → List String
  | [] => []
  | v :: vs => pyRepr v :: pyReprList vs

/-- Reprs of dict items (`key: value` with Python's default spacing). -/
def pyReprPairs : List (String × PyVal) → List String
  | [] => []
  | (k, v) :: vs => ("\x27" ++ k ++ "\x27: " ++ pyRepr v) :: pyReprPairs vs

end

/-- Python `str(v)` for the values reaching the default branch of the
query-string loop (strings verbatim, everything else via `repr`). -/
def pyStr : PyVal → String
  | .vstr s => s
  | v => pyRepr v

/-- The serialization branch of `Octopart.__get` for one argument value:
`if type(val) is BooleanType: v = int(val)`, `elif type(val) is ListType:
v = json.dumps(val, separators=(",", ":"))`, `else: v = val`; the appended
string is `str(v)`. -/
def serializeArg (val : PyVal) : Except PyErr String :=
  match val with
  | .vbool b => .ok (pyStr (.vint (if b then 1 else 0)))
  | .vlist xs => dumpsStr (.vlist xs)
  | v => .ok (pyStr v)

/-- The `arg + "=" + str(v)` strings of `Octopart.__get`, in dict order. -/
def buildArgStrings (args : List (String × PyVal)) : Except PyErr (List String) :=
  args.mapM (fun p => do
    let s ← serializeArg p.2
    pure (p.1 ++ "=" ++ s))

/-- The read-only client configuration (`apikey`, `callback`,
`pretty_print`). -/
structure OctopartClient where
  apikey : Option String
  callback : Option String
  pretty_print : Bool

/-- `Octopart.api_url`. -/
def api_url : String := "http://octopart.com/api/v2/"

/-- The configuration injection at the top of `Octopart.__get` (each field
is added only when truthy, matching `if self.apikey:` on an optional
string and `if self.pretty_print:` on the flag). -/
def injectConfig (c : OctopartClient) (args : List (String × PyVal)) :
    List (String × PyVal) :=
  let args := match c.apikey with
    | some k => if k ≠ "" then setItem args "apikey" (.vstr k) else args
    | Option.none => args
  let args := match c.callback with
    | some k => if k ≠ "" then setItem args "callback" (.vstr k) else args
    | Option.none => args
  if c.pretty_print then setItem args "pretty_print" (.vbool c.pretty_print) else args

/-- The request URL constructed by `Octopart.__get` before the GET is
issued. -/
def get_url (c : OctopartClient) (method : String) (args : List (String × PyVal)) :
    Except PyErr String := do
  let args := injectConfig c args
  if args.isEmpty then pure (api_url ++ method)
  else do
    let ss ← buildArgStrings args
    pure (api_url ++ method ++ "?" ++ joinSep "&" ss)

mutual

/-- Space-freedom of every string embedded in a value (used to state that
compact JSON output contains no whitespace). -/
def valSpaceFree : PyVal → Bool
  | .vstr s => !hasSpace s
  | .vlist xs => listSpaceFree xs
  | .vdict xs => pairsSpaceFree xs
  | _ => true

def listSpaceFree : List PyVal → Bool
  | [] => true
  | v :: vs => valSpaceFree v && listSpaceFree vs

def pairsSpaceFree : List (String × PyVal) → Bool
  | [] => true
  | (k, v) :: vs => !hasSpace k && valSpaceFree v && pairsSpaceFree vs

end

/-- Appending strings cannot create a space that neither side had. -/
theorem hasSpace_append (a b : String) :
    hasSpace (a ++ b) = (hasSpace a || hasSpace b) := by
  simp [hasSpace, String.data_append]

/-- Digit characters are never the space character. -/
theorem digitChar_ne_space (n : Nat) : Nat.digitChar n ≠ ' ' := by
  rcases Nat.lt_or_ge n 16 with h | h
  · exact (by decide : ∀ m, m < 16 → Nat.digitChar m ≠ ' ') n h
  · unfold Nat.digitChar
    have h0 : ¬ n = 0 := by omega
    have h1 : ¬ n = 1 := by omega
    have h2 : ¬ n = 2 := by omega
    have h3 : ¬ n = 3 := by omega
    have h4 : ¬ n = 4 := by omega
    have h5 : ¬ n = 5 := by omega
    have h6 : ¬ n = 6 := by omega
    have h7 : ¬ n = 7 := by omega
    have h8 : ¬ n = 8 := by omega
    have h9 : ¬ n = 9 := by omega
    have h10 : ¬ n = 10 := by omega
    have h11 : ¬ n = 11 := by omega
    have h12 : ¬ n = 12 := by omega
    have h13 : ¬ n = 13 := by omega
    have h14 : ¬ n = 14 := by omega
    have h15 : ¬ n = 15 := by omega
    simp [h0, h1, h2, h3, h4, h5, h6, h7, h8, h9, h10, h11, h12, h13, h14, h15]

/-- `Nat.toDigitsCore` only prepends digit characters. -/
theorem toDigitsCore_no_space (b : Nat) (fuel : Nat) :
    ∀ (n : Nat) (ds : List Char), ' ' ∉ ds → ' ' ∉ Nat.toDigitsCore b fuel n ds := by
  induction fuel with
  | zero => intro n ds h; simpa [Nat.toDigitsCore] using h
  | succ f ih =>
    intro n ds h
    have hcons : ' ' ∉ Nat.digitChar (n % b) :: ds := by
      intro hm
      rcases List.mem_cons.mp hm with h1 | h2
      · exact digitChar_ne_space _ h1.symm
      · exact h h2
    simp only [Nat.toDigitsCore]
    split
    · exact hcons
    · exact ih _ _ hcons

/-- The decimal representation of a natural number contains no space. -/
theorem hasSpace_natRepr (n : Nat) : hasSpace (Nat.repr n) = false := by
  have := toDigitsCore_no_space 10 (n + 1) n [] (by simp)
  simpa [hasSpace, Nat.repr, Nat.toDigits, List.asString] using this

/-- The decimal representation of an integer contains no space. -/
theorem hasSpace_intToString (n : Int) : hasSpace (toString n) = false := by
  cases n with
  | ofNat m => simpa [toString, Int.repr] using hasSpace_natRepr m
  | negSucc m =>
    have h1 : hasSpace "-" = false := by decide
    simp [toString, Int.repr, hasSpace_append, h1, hasSpace_natRepr]

/-- Joining space-free strings with a space-free separator yields a
space-free string. -/
theorem hasSpace_joinSep (sep : String) (l : List String)
    (hsep : hasSpace sep = false) (h : ∀ s ∈ l, hasSpace s = false) :
    hasSpace (joinSep sep l) = false := by
  induction l with
  | nil => simp only [joinSep]; decide
  | cons s rest ih =>
    cases rest with
    | nil => simpa [joinSep] using h s (by simp)
    | cons t ts =>
      have hs := h s (by simp)
      have hrest : ∀ x ∈ t :: ts, hasSpace x = false := fun x hx => h x (by simp [hx])
      simp [joinSep, hasSpace_append, hs, hsep]
      simpa [joinSep] using ih hrest

/-- The JSON character escape never produces a space from a non-space
character. -/
theorem escChar_no_space {c : Char} (h : c ≠ ' ') : ' ' ∉ escChar c := by
  by_cases h1 : c = '\\'
  · subst h1; decide
  · by_cases h2 : c = '"'
    · subst h2; decide
    · by_cases h3 : c = '\n'
      · subst h3; decide
      · by_cases h4 : c = '\t'
        · subst h4; decide
        · by_cases h5 : c = '\r'
          · subst h5; decide
          · simpa [escChar, h1, h2, h3, h4, h5] using h.symm

/-- JSON string escaping preserves space-freedom. -/
theorem hasSpace_jsonEscape (s : String) (h : hasSpace s = false) :
    hasSpace (jsonEscape s) = false := by
  simp only [hasSpace, jsonEscape, decide_eq_false_iff_not] at *
  intro hm
  rcases List.mem_flatten.mp hm with ⟨l, hl, hml⟩
  rcases List.mem_map.mp hl with ⟨c, hc, rfl⟩
  have : c ≠ ' ' := fun hcs => h (hcs ▸ hc)
  exact escChar_no_space this hml

mutual

/-- Compact JSON output of a space-free value contains no space: the
serializer only inserts the separators `","` and `":"` and the structural
characters, never whitespace. -/
theorem dumpsStr_noSpace : ∀ (v : PyVal) (s : String), valSpaceFree v = true →
    dumpsStr v = .ok s → hasSpace s = false
  | .none, s, _, h => by
      simp only [dumpsStr, Except.ok.injEq] at h
      subst h; decide
  | .vbool b, s, _, h => by
      cases b <;> simp only [dumpsStr, Except.ok.injEq] at h <;> (subst h; decide)
  | .vint n, s, _, h => by
      simp only [dumpsStr, Except.ok.injEq] at h
      subst h; exact hasSpace_intToString n
  | .vstr t, s, hv, h => by
      simp only [dumpsStr, Except.ok.injEq] at h
      subst h
      simp only [valSpaceFree, Bool.not_eq_true'] at hv
      have ht := hasSpace_jsonEscape t hv
      have hq : hasSpace "\"" = false := by decide
      simp [hasSpace_append, ht, hq]
  | .vlist xs, s, hv, h => by
      cases hps : dumpsList xs with
      | error e => simp [dumpsStr, hps, bind, Except.bind] at h
      | ok ps =>
          simp only [dumpsStr, hps, bind, Except.bind, Except.ok.injEq] at h
          subst h
          have hall := dumpsList_noSpace xs ps (by simpa [valSpaceFree] using hv) hps
          have hj := hasSpace_joinSep "," ps (by decide) hall
          have hb1 : hasSpace "[" = false := by decide
          have hb2 : hasSpace "]" = false := by decide
          simp [hasSpace_append, hj, hb1, hb2]
  | .vdict xs, s, hv, h => by
      cases hps : dumpsPairs xs with
      | error e => simp [dumpsStr, hps, bind, Except.bind] at h
      | ok ps =>
          simp only [dumpsStr, hps, bind, Except.bind, Except.ok.injEq] at h
          subst h
          have hall := dumpsPairs_noSpace xs ps (by simpa [valSpaceFree] using hv) hps
          have hj := hasSpace_joinSep "," ps (by decide) hall
          have hb1 : hasSpace "\x7b" = false := by decide
          have hb2 : hasSpace "\x7d" = false := by decide
          simp [hasSpace_append, hj, hb1, hb2]
  | .vobj cls attrs, s, _, h => by simp [dumpsStr] at h

/-- Serialized array elements of a space-free list are space-free. -/
theorem dumpsList_noSpace : ∀ (xs : List PyVal) (ps : List String),
    listSpaceFree xs = true → dumpsList xs = .ok ps → ∀ p ∈ ps, hasSpace p = false
  | [], ps, _, h => by
      simp only [dumpsList, Except.ok.injEq] at h
      subst h; simp
  | v :: vs, ps, hv, h => by
      cases hs : dumpsStr v with
      | error e => simp [dumpsList, hs, bind, Except.bind] at h
      | ok s =>
        cases hrest : dumpsList vs with
        | error e => simp [dumpsList, hs, hrest, bind, Except.bind] at h
        | ok rest =>
          simp only [dumpsList, hs, hrest, bind, Except.bind, Except.ok.injEq] at h
          subst h
          simp only [listSpaceFree, Bool.and_eq_true] at hv
          intro p hp
          rcases List.mem_cons.mp hp with rfl | hp2
          · exact dumpsStr_noSpace v p hv.1 hs
          · exact dumpsList_noSpace vs rest hv.2 hrest p hp2

/-- Serialized object members of a space-free dict are space-free. -/
theorem dumpsPairs_noSpace : ∀ (xs : List (String × PyVal)) (ps : List String),
    pairsSpaceFree xs = true → dumpsPairs xs = .ok ps → ∀ p ∈ ps, hasSpace p = false
  | [], ps, _, h => by
      simp only [dumpsPairs, Except.ok.injEq] at h
      subst h; simp
  | (k, v) :: vs, ps, hv, h => by
      cases hs : dumpsStr v with
      | error e => simp [dumpsPairs, hs, bind, Except.bind] at h
      | ok s =>
        cases hrest : dumpsPairs vs with
        | error e => simp [dumpsPairs, hs, hrest, bind, Except.bind] at h
        | ok rest =>
          simp only [dumpsPairs, hs, hrest, bind, Except.bind, Except.ok.injEq] at h
          subst h
          simp only [pairsSpaceFree, Bool.and_eq_true, Bool.not_eq_true'] at hv
          intro p hp
          rcases List.mem_cons.mp hp with rfl | hp2
          · have hk := hasSpace_jsonEscape k hv.1.1
            have hsv := dumpsStr_noSpace v s hv.1.2 hs
            have hq : hasSpace "\"" = false := by decide
            have hc : hasSpace "\":" = false := by decide
            simp [hasSpace_append, hk, hsv, hq, hc]
          · exact dumpsPairs_noSpace vs rest hv.2 hrest p hp2

end

/-- Looking up the head key of an association list. -/
theorem lookup_cons_self {β : Type} (k : String) (v : β) (l : List (String × β)) :
    List.lookup k ((k, v) :: l) = some v := by
  simp [List.lookup]

/-- Looking up past a head entry with a different key. -/
theorem lookup_cons_ne {β : Type} (k k0 : String) (v : β) (l : List (String × β))
    (h : k ≠ k0) : List.lookup k ((k0, v) :: l) = List.lookup k l := by
  have hb : (k == k0) = false := beq_eq_false_iff_ne.mpr h
  simp [List.lookup, hb]

/-- Looking up the key just assigned by `setItem` yields the assigned
value. -/
theorem lookup_setItem_eq (xs : List (String × PyVal)) (k : String) (v : PyVal) :
    List.lookup k (setItem xs k v) = some v := by
  induction xs with
  | nil => simp [setItem, lookup_cons_self]
  | cons p rest ih =>
    obtain ⟨k', v'⟩ := p
    by_cases h : k' = k
    · subst h
      simp [setItem, lookup_cons_self]
    · have hb : (k' == k) = false := beq_eq_false_iff_ne.mpr h
      simp only [setItem, hb, Bool.false_eq_true, if_false]
      rw [lookup_cons_ne _ _ _ _ (fun hh => h hh.symm)]
      exact ih

/-- `setItem` does not disturb lookups at other keys. -/
theorem lookup_setItem_ne (xs : List (String × PyVal)) (k k' : String) (v : PyVal)
    (h : k ≠ k') : List.lookup k (setItem xs k' v) = List.lookup k xs := by
  induction xs with
  | nil =>
    show List.lookup k [(k', v)] = List.lookup k []
    rw [lookup_cons_ne _ _ _ _ h]
  | cons p rest ih =>
    obtain ⟨k0, v0⟩ := p
    by_cases h0 : k0 = k'
    · subst h0
      have hb : (k0 == k0) = true := beq_self_eq_true k0
      simp only [setItem, hb, if_true]
      rw [lookup_cons_ne _ _ _ _ h, lookup_cons_ne _ _ _ _ h]
    · have hb : (k0 == k') = false := beq_eq_false_iff_ne.mpr h0
      simp only [setItem, hb, Bool.false_eq_true, if_false]
      by_cases h1 : k = k0
      · subst h1
        rw [lookup_cons_self, lookup_cons_self]
      · rw [lookup_cons_ne _ _ _ _ h1, lookup_cons_ne _ _ _ _ h1, ih]

/-- A successful association-list lookup produces a pair of the list. -/
theorem pair_mem_of_lookup {β : Type} (l : List (String × β)) (k : String) (v : β)
    (h : List.lookup k l = some v) : (k, v) ∈ l := by
  induction l with
  | nil => simp [List.lookup] at h
  | cons p rest ih =>
    obtain ⟨k0, v0⟩ := p
    by_cases h0 : k = k0
    · subst h0
      rw [lookup_cons_self] at h
      cases h
      exact List.mem_cons_self _ _
    · rw [lookup_cons_ne _ _ _ _ h0] at h
      exact List.mem_cons_of_mem _ (ih h)

/-- No value (dotted name) of the alias table is itself an alias key. -/
theorem translation_snd_not_key :
    ∀ p ∈ translation, List.lookup p.2 translation = Option.none := by
  decide

/-- One application of the key rewrite lands outside the alias table's
domain, whatever the starting key. -/
theorem translation_lookup_getD_none (k : String) :
    List.lookup ((List.lookup k translation).getD k) translation = Option.none := by
  cases h : List.lookup k translation with
  | none => simpa using h
  | some v =>
      simpa using translation_snd_not_key (k, v) (pair_mem_of_lookup _ _ _ h)

mutual

/-- `__translate_periods` is idempotent on dict entry lists: a second pass
finds no alias keys (every rewritten key is a dotted name outside the
table's domain) and the recursive value translations are idempotent as
well. -/
theorem translatePairs_idem : ∀ xs, translatePairs (translatePairs xs) = translatePairs xs
  | [] => by simp only [translatePairs]
  | (k, v) :: rest => by
      cases v with
      | vdict xs =>
          simp only [translatePairs, translation_lookup_getD_none k, Option.getD_none,
            translatePairs_idem xs, translatePairs_idem rest]
      | vlist ys =>
          simp only [translatePairs, translation_lookup_getD_none k, Option.getD_none,
            translateList_idem ys, translatePairs_idem rest]
      | none =>
          simp only [translatePairs, translation_lookup_getD_none k, Option.getD_none,
            translatePairs_idem rest]
      | vbool b =>
          simp only [translatePairs, translation_lookup_getD_none k, Option.getD_none,
            translatePairs_idem rest]
      | vint n =>
          simp only [translatePairs, translation_lookup_getD_none k, Option.getD_none,
            translatePairs_idem rest]
      | vstr s =>
          simp only [translatePairs, translation_lookup_getD_none k, Option.getD_none,
            translatePairs_idem rest]
      | vobj cls attrs =>
          simp only [translatePairs, translation_lookup_getD_none k, Option.getD_none,
            translatePairs_idem rest]

/-- Idempotence for the list branch of `__translate_periods`. -/
theorem translateList_idem : ∀ ys, translateList (translateList ys) = translateList ys
  | [] => by simp only [translateList]
  | .vdict xs :: rest => by
      simp only [translateList, translatePairs_idem xs, translateList_idem rest]
  | .none :: rest => by
      simp only [translateList, translateList_idem rest]
  | .vbool b :: rest => by
      simp only [translateList, translateList_idem rest]
  | .vint n :: rest => by
      simp only [translateList, translateList_idem rest]
  | .vstr s :: rest => by
      simp only [translateList, translateList_idem rest]
  | .vlist ys :: rest => by
      simp only [translateList, translateList_idem rest]
  | .vobj cls attrs :: rest => by
      simp only [translateList, translateList_idem rest]

end

/-- Evaluation of `__translate_periods` on the empty keyword dict (the
function is defined by well-founded recursion, so ground instances are
provided as rewrite lemmas). -/
theorem translatePairs_nil : translatePairs [] = [] := by
  simp [translatePairs]

/-- Evaluation of `__translate_periods` on a plain `q` argument. -/
theorem translatePairs_q (s : String) :
    translatePairs [("q", PyVal.vstr s)] = [("q", PyVal.vstr s)] := by
  have hq : List.lookup "q" translation = Option.none := by decide
  simp [translatePairs, hq]

/-- Evaluation of `__translate_periods` on a `q`/`limit` argument pair. -/
theorem translatePairs_q_limit (s : String) (n : Int) :
    translatePairs [("q", PyVal.vstr s), ("limit", PyVal.vint n)] =
      [("q", PyVal.vstr s), ("limit", PyVal.vint n)] := by
  have hq : List.lookup "q" translation = Option.none := by decide
  have hl : List.lookup "limit" translation = Option.none := by decide
  simp [translatePairs, hq, hl]

/-- C2: an HTTP 404 on parts/get makes the call return an absent result
(`None`) with no error, while an HTTP 404 on parts/get_multi raises the
not-found error kind (`OctopartException` code 7). -/
theorem parts_get_404_absent_and_get_multi_404_not_found (uid : Int) (s : String) :
    parts_get (.vint uid) [] (.httpError 404) = .retNone ∧
    parts_get_multi (.vstr s) [] (.httpError 404) = .exc 7 :=
  ⟨by simp only [parts_get, translatePairs_nil]; rfl,
   by simp only [parts_get_multi, translatePairs_nil]; rfl⟩

/-- C9: an HTTP 503 response surfaces as the service-unavailable error kind
(`OctopartException` code 8) on every endpoint of the client. -/
theorem http_503_service_unavailable_on_every_endpoint :
    categories_get (.vint 42) (.httpError 503) = .exc 8 ∧
    categories_get_multi (.vlist [.vint 1, .vint 2]) (.httpError 503) = .exc 8 ∧
    categories_search [("q", .vstr "res")] (.httpError 503) = .exc 8 ∧
    parts_get (.vint 42) [] (.httpError 503) = .exc 8 ∧
    parts_get_multi (.vstr "1,2") [] (.httpError 503) = .exc 8 ∧
    parts_search [("q", .vstr "res")] (.httpError 503) = .exc 8 ∧
    parts_suggest (.vstr "resistor") [] (.httpError 503) = .exc 8 ∧
    parts_match (.vstr "Texas Instruments") (.vstr "LM317") (.httpError 503) = .exc 8 ∧
    partattributes_get (.vstr "capacitance") (.httpError 503) = .exc 8 ∧
    partattributes_get_multi (.vlist [.vstr "capacitance"]) (.httpError 503) = .exc 8 ∧
    bom_match [.vdict [("reference", .vstr "R1")]] [] (.httpError 503) = .exc 8 :=
  ⟨rfl, rfl, rfl,
   by simp only [parts_get, translatePairs_nil]; rfl,
   by simp only [parts_get_multi, translatePairs_nil]; rfl,
   by simp only [parts_search, translatePairs_q]; rfl,
   rfl, rfl, rfl, rfl,
   by simp only [bom_match, translatePairs_nil]; rfl⟩

/-- Evaluation helper for endpoint-level boundary checks: the body of
`parts_search` once the keyword translation has been evaluated. -/
theorem parts_search_eval (kwargs args : List (String × PyVal)) (resp : HttpResult)
    (ht : translatePairs kwargs = args) :
    parts_search kwargs resp =
      (match validate_args args parts_search_types parts_search_ranges with
        | some _ => Outcome.retNone
        | Option.none =>
            handleHttp resp (.exc 7) (fun j => outcomeOf (parts_search_map args j))) := by
  unfold parts_search
  rw [ht]

/-- C7: every range-constrained numeric argument accepts its maximum and
rejects one past it with the numeric-out-of-range error kind (code 4):
parts/search `start` and `drilldown.facets.start` top out at 1000, `limit`
and `drilldown.facets.limit` at 100, parts/suggest `limit` at 10, and the
bom/match per-line `limit` at 20; at the endpoint level parts/search with
`limit = 100` issues the request while `limit = 101` is rejected before any
request. -/
theorem numeric_range_boundaries :
    validate_args [("start", .vint 1000)] parts_search_types parts_search_ranges = Option.none ∧
    validate_args [("start", .vint 1001)] parts_search_types parts_search_ranges = some 4 ∧
    validate_args [("limit", .vint 100)] parts_search_types parts_search_ranges = Option.none ∧
    validate_args [("limit", .vint 101)] parts_search_types parts_search_ranges = some 4 ∧
    validate_args [("drilldown.facets.start", .vint 1000)] parts_search_types
      parts_search_ranges = Option.none ∧
    validate_args [("drilldown.facets.start", .vint 1001)] parts_search_types
      parts_search_ranges = some 4 ∧
    validate_args [("drilldown.facets.limit", .vint 100)] parts_search_types
      parts_search_ranges = Option.none ∧
    validate_args [("drilldown.facets.limit", .vint 101)] parts_search_types
      parts_search_ranges = some 4 ∧
    validate_args [("limit", .vint 10)] parts_suggest_types parts_suggest_ranges = Option.none ∧
    validate_args [("limit", .vint 11)] parts_suggest_types parts_suggest_ranges = some 4 ∧
    validate_args [("limit", .vint 20)] lines_arg_types lines_arg_ranges = Option.none ∧
    validate_args [("limit", .vint 21)] lines_arg_types lines_arg_ranges = some 4 ∧
    parts_search [("q", .vstr "r"), ("limit", .vint 100)] (.httpError 503) = .exc 8 ∧
    (∀ resp, parts_search [("q", .vstr "r"), ("limit", .vint 101)] resp = .retNone) :=
  ⟨rfl, rfl, rfl, rfl, rfl, rfl, rfl, rfl, rfl, rfl, rfl, rfl,
   (parts_search_eval _ _ _ (translatePairs_q_limit "r" 100)).trans rfl,
   fun resp => (parts_search_eval _ _ resp (translatePairs_q_limit "r" 101)).trans rfl⟩

/-- C8: parts/suggest rejects a one-character query with the
length-out-of-range error kind (code 5) and accepts a two-character query;
at the endpoint level the one-character call returns `None` without issuing
a request, and the two-character call issues the request. -/
theorem suggest_query_length_boundary :
    validate_args [("q", .vstr "a")] parts_suggest_types parts_suggest_ranges = some 5 ∧
    validate_args [("q", .vstr "ab")] parts_suggest_types parts_suggest_ranges = Option.none ∧
    (∀ resp, parts_suggest (.vstr "a") [] resp = .retNone) ∧
    parts_suggest (.vstr "ab") [] (.httpError 503) = .exc 8 :=
  ⟨rfl, rfl, fun _ => rfl, rfl⟩

/-- C1 (divergence witness): the bom/match line check computes
`line.get("start", 0) + line.get("match", 0)`, reading the key `"match"`
that the line schema can never contain, instead of `"limit"`.  A line with
`start = 90, limit = 15` therefore passes the check and the call issues its
request (the 503 from the transport is surfaced), a line with
`start = 90, limit = 10` passes as well, and the error kind 6 actually
fires exactly when `start` alone exceeds 100. -/
theorem bom_line_limit_reads_match_key :
    bomLineCheck (.vdict [("reference", .vstr "R1"), ("start", .vint 90),
      ("limit", .vint 15)]) = .ok Option.none ∧
    bom_match [.vdict [("reference", .vstr "R1"), ("start", .vint 90), ("limit", .vint 15)]]
      [] (.httpError 503) = .exc 8 ∧
    bomLineCheck (.vdict [("reference", .vstr "R1"), ("start", .vint 90),
      ("limit", .vint 10)]) = .ok Option.none ∧
    bomLineCheck (.vdict [("reference", .vstr "R1"), ("start", .vint 101)]) =
      .ok (some 6) ∧
    (∀ resp, bom_match [.vdict [("reference", .vstr "R1"), ("start", .vint 101)]] [] resp =
      .retNone) :=
  ⟨rfl,
   by simp only [bom_match, translatePairs_nil]; rfl,
   rfl, rfl,
   fun _ => by simp only [bom_match, translatePairs_nil]; rfl⟩

/-- A key that cannot be looked up does not occur in the key list. -/
theorem contains_eq_false_of_lookup_none {β : Type} (l : List (String × β)) (k : String)
    (h : List.lookup k l = Option.none) : (l.map Prod.fst).contains k = false := by
  induction l with
  | nil => simp
  | cons p rest ih =>
    obtain ⟨k0, v0⟩ := p
    by_cases h0 : k = k0
    · subst h0
      rw [lookup_cons_self] at h
      cases h
    · rw [lookup_cons_ne _ _ _ _ h0] at h
      have hb : (k == k0) = false := beq_eq_false_iff_ne.mpr h0
      simp only [List.map_cons, List.contains_cons, hb, ih h, Bool.or_self]

/-- C3 (counterexample): the bare alias `facets_limit` is not in the
translation table, so an inner options block holding it is returned
unchanged by `__translate_periods` — it is not rewritten to the dotted key
`facets.limit` that the claim expects. -/
theorem facets_limit_alias_not_translated :
    translateVal (.vdict [("opts", .vdict [("facets_limit", .vint 5)])]) =
      .vdict [("opts", .vdict [("facets_limit", .vint 5)])] ∧
    List.lookup "facets_limit" translation = Option.none ∧
    "facets_limit" ≠ "facets.limit" := by
  refine ⟨?_, by decide, by decide⟩
  have h1 : List.lookup "opts" translation = Option.none := by decide
  have h2 : List.lookup "facets_limit" translation = Option.none := by decide
  simp [translateVal, translatePairs, h1, h2]

/-- C3 (amended): `__translate_periods` is idempotent, and it descends
recursively into nested dict and list-of-dict argument values, translating
the inner aliases that occur in its table — e.g. an inner block holding
`drilldown_facets_limit` is rewritten to `drilldown.facets.limit`. -/
theorem translate_periods_idempotent_and_recursive :
    (∀ v, translateVal (translateVal v) = translateVal v) ∧
    translateVal (.vdict [("opts", .vdict [("drilldown_facets_limit", .vint 5)])]) =
      .vdict [("opts", .vdict [("drilldown.facets.limit", .vint 5)])] ∧
    translateVal (.vdict [("lst", .vlist [.vdict [("drilldown_facets_limit", .vint 5)]])]) =
      .vdict [("lst", .vlist [.vdict [("drilldown.facets.limit", .vint 5)]])] := by
  refine ⟨fun v => ?_, ?_, ?_⟩
  · cases v with
    | vdict xs => exact congrArg PyVal.vdict (translatePairs_idem xs)
    | none => rfl
    | vbool b => rfl
    | vint n => rfl
    | vstr s => rfl
    | vlist xs => rfl
    | vobj cls attrs => rfl
  · have h1 : List.lookup "opts" translation = Option.none := by decide
    have h2 : List.lookup "drilldown_facets_limit" translation =
        some "drilldown.facets.limit" := by decide
    simp [translateVal, translatePairs, translateList, h1, h2]
  · have h1 : List.lookup "lst" translation = Option.none := by decide
    have h2 : List.lookup "drilldown_facets_limit" translation =
        some "drilldown.facets.limit" := by decide
    simp [translateVal, translatePairs, translateList, h1, h2]

/-- C4 (counterexample): categories/search declares `q` in its schema but
never checks that a required argument is present — a call with no arguments
at all passes validation and issues the network request (the transport's
503 is surfaced), with no missing-required-argument error. -/
theorem categories_search_missing_required_not_checked :
    validate_args [] categories_search_types [] = Option.none ∧
    categories_search [] (.httpError 503) = .exc 8 :=
  ⟨rfl, rfl⟩

/-- C4 (amended): only bom/match enforces a required field, and only inside
its line items: a line that validates but lacks `reference` produces the
missing-required-argument error kind (code 0) and the whole call returns
`None` without issuing any request, whatever the transport would have
answered. -/
theorem bom_line_missing_reference (xs : List (String × PyVal))
    (hval : validate_args xs lines_arg_types lines_arg_ranges = Option.none)
    (href : List.lookup "reference" xs = Option.none) :
    bomLineCheck (.vdict xs) = .ok (some 0) ∧
    ∀ resp, bom_match [.vdict xs] [] resp = .retNone := by
  have hcont := contains_eq_false_of_lookup_none xs "reference" href
  have hcheck : bomLineCheck (.vdict xs) = .ok (some 0) := by
    simp only [bomLineCheck, asDict, bind, Except.bind]
    rw [hval, hcont]
    rfl
  refine ⟨hcheck, fun resp => ?_⟩
  simp [bom_match, bomCheckLines, hcheck, bind, Except.bind, pure, Except.pure]

/-- C4 (amended, witness): a concrete line holding only `mpn` validates,
lacks `reference`, and aborts the call with error kind 0. -/
theorem bom_line_missing_reference_witness :
    bomLineCheck (.vdict [("mpn", .vstr "LM317")]) = .ok (some 0) ∧
    bom_match [.vdict [("mpn", .vstr "LM317")]] [] (.ok .none) = .retNone :=
  ⟨(bom_line_missing_reference [("mpn", .vstr "LM317")] rfl rfl).1,
   (bom_line_missing_reference [("mpn", .vstr "LM317")] rfl rfl).2 (.ok .none)⟩

/-- Building an `OctopartPartAttribute` from any dict fails: either a key
subscript raises first, or the constructor's unbound `fieldanme` raises
`NameError`. -/
theorem partattribute_new_from_dict_always_error (w : PyVal) :
    ∃ e, OctopartPartAttribute.new_from_dict w = .error e := by
  unfold OctopartPartAttribute.new_from_dict
  cases h1 : pyItem w "fieldname" with
  | error e => exact ⟨e, by simp [h1, bind, Except.bind]⟩
  | ok fn =>
    cases h2 : pyItem w "displayname" with
    | error e => exact ⟨e, by simp [h1, h2, bind, Except.bind]⟩
    | ok dn =>
      cases h3 : pyItem w "type" with
      | error e => exact ⟨e, by simp [h1, h2, h3, bind, Except.bind]⟩
      | ok ty =>
        cases h4 : asDict w with
        | error e => exact ⟨e, by simp [h1, h2, h3, h4, bind, Except.bind]⟩
        | ok xs =>
          exact ⟨.nameError "fieldanme",
            by simp [h1, h2, h3, h4, bind, Except.bind, OctopartPartAttribute.init]⟩

/-- C6: the `OctopartPartAttribute` constructor reads the unbound name
`fieldanme` and raises `NameError` on every input; no call of
`new_from_dict` can return an attribute object, so partattributes/get and
partattributes/get_multi escape with a Python exception on every truthy
(non-empty) response instead of returning a `PartAttribute`. -/
theorem partattribute_construction_always_fails (f d t m w j x : PyVal)
    (xs : List PyVal) (hj : truthy j = true) :
    OctopartPartAttribute.init f d t m = .error (.nameError "fieldanme") ∧
    (∀ v, OctopartPartAttribute.new_from_dict w ≠ .ok v) ∧
    (∃ e, partattributes_get (.vstr "capacitance") (.ok j) = .pyErr e) ∧
    (∃ e, partattributes_get_multi (.vlist [.vstr "capacitance"])
      (.ok (.vlist (x :: xs))) = .pyErr e) := by
  obtain ⟨ej, hej⟩ := partattribute_new_from_dict_always_error j
  obtain ⟨ex, hex⟩ := partattribute_new_from_dict_always_error x
  refine ⟨rfl, ?_, ⟨ej, ?_⟩, ⟨ex, ?_⟩⟩
  · intro v hv
    obtain ⟨e, he⟩ := partattribute_new_from_dict_always_error w
    rw [hv] at he
    cases he
  · have step : partattributes_get (.vstr "capacitance") (.ok j) =
        (if truthy j then
          outcomeOf ((OctopartPartAttribute.new_from_dict j).map Outcome.ret)
        else .retNone) := rfl
    rw [step, if_pos hj, hej]
    rfl
  · have step : partattributes_get_multi (.vlist [.vstr "capacitance"])
        (.ok (.vlist (x :: xs))) =
        outcomeOf (do
          let items ← pyIter (.vlist (x :: xs))
          let as_ ← items.mapM OctopartPartAttribute.new_from_dict
          pure (.ret (.vlist as_))) := rfl
    rw [step]
    simp [pyIter, bind, Except.bind, List.mapM, List.mapM.loop, hex, outcomeOf]

/-- C6 (witness): at a concrete well-formed attribute dict the constructor
path raises, and partattributes/get escapes with a Python error. -/
theorem partattribute_construction_always_fails_witness :
    ∃ e, partattributes_get (.vstr "capacitance")
      (.ok (.vdict [("fieldname", .vstr "capacitance"),
        ("displayname", .vstr "Capacitance"), ("type", .vstr "number")])) = .pyErr e :=
  (partattribute_construction_always_fails (.vstr "x") (.vstr "x") (.vstr "x") (.vstr "x")
    (.vstr "x")
    (.vdict [("fieldname", .vstr "capacitance"), ("displayname", .vstr "Capacitance"),
      ("type", .vstr "number")])
    (.vstr "x") [] rfl).2.2.1

/-- C5: constructing a Part from a JSON dict whose `manufacturer` entry is a
sub-dict yields a Part whose `manufacturer` attribute is an `OctopartBrand`
carrying exactly the sub-dict's `id`, `displayname` and `homepage_url`, and
every other supplied field of the dict is preserved exactly (optional
fields fall back to their documented defaults).  The dict is assumed to
carry no `offers`/`specs` entries, whose elements the constructor converts
in place rather than preserving. -/
theorem part_from_dict_brand_and_fields
    (xs m : List (String × PyVal)) (bid bdn bhp u mp du : PyVal)
    (hman : List.lookup "manufacturer" xs = some (.vdict m))
    (hid : List.lookup "id" m = some bid)
    (hdn : List.lookup "displayname" m = some bdn)
    (hhp : List.lookup "homepage_url" m = some bhp)
    (huid : List.lookup "uid" xs = some u)
    (hmpn : List.lookup "mpn" xs = some mp)
    (hdu : List.lookup "detail_url" xs = some du)
    (hoff : List.lookup "offers" xs = Option.none)
    (hsp : List.lookup "specs" xs = Option.none) :
    OctopartPart.init (.vdict xs) = .ok (.vobj "OctopartPart"
      [("uid", u), ("mpn", mp),
       ("manufacturer", .vobj "OctopartBrand"
         [("id", bid), ("displayname", bdn), ("homepage_url", bhp)]),
       ("detail_url", du),
       ("avg_price", (List.lookup "avg_price" xs).getD .none),
       ("avg_avail", (List.lookup "avg_avail" xs).getD .none),
       ("market_status", (List.lookup "market_status" xs).getD .none),
       ("num_suppliers", (List.lookup "num_suppliers" xs).getD .none),
       ("num_authsuppliers", (List.lookup "num_authsuppliers" xs).getD .none),
       ("short_description", (List.lookup "short_description" xs).getD (.vstr "")),
       ("category_ids", (List.lookup "category_ids" xs).getD (.vlist [])),
       ("images", (List.lookup "images" xs).getD (.vlist [])),
       ("datasheets", (List.lookup "datasheets" xs).getD (.vlist [])),
       ("descriptions", (List.lookup "descriptions" xs).getD (.vlist [])),
       ("hyperlinks", (List.lookup "hyperlinks" xs).getD (.vdict [])),
       ("offers", .vlist []), ("specs", .vlist [])]) := by
  have hB : OctopartBrand.new_from_dict (.vdict m) = .ok (.vobj "OctopartBrand"
      [("id", bid), ("displayname", bdn), ("homepage_url", bhp)]) := by
    simp [OctopartBrand.new_from_dict, pyItem, hid, hdn, hhp, bind, Except.bind,
      pure, Except.pure]
  have lman := lookup_setItem_eq xs "manufacturer" (PyVal.vobj "OctopartBrand"
    [("id", bid), ("displayname", bdn), ("homepage_url", bhp)])
  have luid := (lookup_setItem_ne xs "uid" "manufacturer" (PyVal.vobj "OctopartBrand"
    [("id", bid), ("displayname", bdn), ("homepage_url", bhp)]) (by decide)).trans huid
  have lmpn := (lookup_setItem_ne xs "mpn" "manufacturer" (PyVal.vobj "OctopartBrand"
    [("id", bid), ("displayname", bdn), ("homepage_url", bhp)]) (by decide)).trans hmpn
  have ldu := (lookup_setItem_ne xs "detail_url" "manufacturer" (PyVal.vobj "OctopartBrand"
    [("id", bid), ("displayname", bdn), ("homepage_url", bhp)]) (by decide)).trans hdu
  have loff := (lookup_setItem_ne xs "offers" "manufacturer" (PyVal.vobj "OctopartBrand"
    [("id", bid), ("displayname", bdn), ("homepage_url", bhp)]) (by decide)).trans hoff
  have lsp := (lookup_setItem_ne xs "specs" "manufacturer" (PyVal.vobj "OctopartBrand"
    [("id", bid), ("displayname", bdn), ("homepage_url", bhp)]) (by decide)).trans hsp
  have lavgp := lookup_setItem_ne xs "avg_price" "manufacturer" (PyVal.vobj "OctopartBrand"
    [("id", bid), ("displayname", bdn), ("homepage_url", bhp)]) (by decide)
  have lavga := lookup_setItem_ne xs "avg_avail" "manufacturer" (PyVal.vobj "OctopartBrand"
    [("id", bid), ("displayname", bdn), ("homepage_url", bhp)]) (by decide)
  have lms := lookup_setItem_ne xs "market_status" "manufacturer" (PyVal.vobj "OctopartBrand"
    [("id", bid), ("displayname", bdn), ("homepage_url", bhp)]) (by decide)
  have lns := lookup_setItem_ne xs "num_suppliers" "manufacturer" (PyVal.vobj "OctopartBrand"
    [("id", bid), ("displayname", bdn), ("homepage_url", bhp)]) (by decide)
  have lna := lookup_setItem_ne xs "num_authsuppliers" "manufacturer"
    (PyVal.vobj "OctopartBrand"
    [("id", bid), ("displayname", bdn), ("homepage_url", bhp)]) (by decide)
  have lsd := lookup_setItem_ne xs "short_description" "manufacturer"
    (PyVal.vobj "OctopartBrand"
    [("id", bid), ("displayname", bdn), ("homepage_url", bhp)]) (by decide)
  have lci := lookup_setItem_ne xs "category_ids" "manufacturer" (PyVal.vobj "OctopartBrand"
    [("id", bid), ("displayname", bdn), ("homepage_url", bhp)]) (by decide)
  have lim := lookup_setItem_ne xs "images" "manufacturer" (PyVal.vobj "OctopartBrand"
    [("id", bid), ("displayname", bdn), ("homepage_url", bhp)]) (by decide)
  have lds := lookup_setItem_ne xs "datasheets" "manufacturer" (PyVal.vobj "OctopartBrand"
    [("id", bid), ("displayname", bdn), ("homepage_url", bhp)]) (by decide)
  have ldescr := lookup_setItem_ne xs "descriptions" "manufacturer" (PyVal.vobj "OctopartBrand"
    [("id", bid), ("displayname", bdn), ("homepage_url", bhp)]) (by decide)
  have lhy := lookup_setItem_ne xs "hyperlinks" "manufacturer" (PyVal.vobj "OctopartBrand"
    [("id", bid), ("displayname", bdn), ("homepage_url", bhp)]) (by decide)
  have hpo : processEach processOffer (PyVal.vlist []) = .ok (.vlist []) := rfl
  have hps : processEach processSpec (PyVal.vlist []) = .ok (.vlist []) := rfl
  simp only [OctopartPart.init, asDict, lookupE, bind, Except.bind, hman, hB, lman, luid,
    lmpn, ldu, loff, lsp, lavgp, lavga, lms, lns, lna, lsd, lci, lim, lds, ldescr, lhy,
    hpo, hps, Option.getD_none, Option.isSome_none, Bool.false_eq_true, if_false,
    pure, Except.pure]

/-- C5 (witness): a concrete part dict with a manufacturer sub-dict and one
optional field supplied is converted with the brand reconstructed and every
field preserved. -/
theorem part_from_dict_brand_and_fields_witness :
    OctopartPart.init (.vdict [("uid", .vint 7), ("mpn", .vstr "LM317"),
      ("manufacturer", .vdict [("id", .vint 3), ("displayname", .vstr "TI"),
        ("homepage_url", .vstr "http://ti.com")]),
      ("detail_url", .vstr "http://octopart.com/p"), ("avg_price", .vint 2)]) =
    .ok (.vobj "OctopartPart"
      [("uid", .vint 7), ("mpn", .vstr "LM317"),
       ("manufacturer", .vobj "OctopartBrand"
         [("id", .vint 3), ("displayname", .vstr "TI"),
          ("homepage_url", .vstr "http://ti.com")]),
       ("detail_url", .vstr "http://octopart.com/p"),
       ("avg_price", .vint 2), ("avg_avail", .none), ("market_status", .none),
       ("num_suppliers", .none), ("num_authsuppliers", .none),
       ("short_description", .vstr ""), ("category_ids", .vlist []),
       ("images", .vlist []), ("datasheets", .vlist []), ("descriptions", .vlist []),
       ("hyperlinks", .vdict []), ("offers", .vlist []), ("specs", .vlist [])]) :=
  part_from_dict_brand_and_fields
    [("uid", .vint 7), ("mpn", .vstr "LM317"),
     ("manufacturer", .vdict [("id", .vint 3), ("displayname", .vstr "TI"),
       ("homepage_url", .vstr "http://ti.com")]),
     ("detail_url", .vstr "http://octopart.com/p"), ("avg_price", .vint 2)]
    [("id", .vint 3), ("displayname", .vstr "TI"), ("homepage_url", .vstr "http://ti.com")]
    (.vint 3) (.vstr "TI") (.vstr "http://ti.com") (.vint 7) (.vstr "LM317")
    (.vstr "http://octopart.com/p") rfl rfl rfl rfl rfl rfl rfl rfl rfl

/-- C10: in the query-string loop of `__get`, a boolean argument is
serialized as `1`/`0`, a list argument is serialized as the compact JSON
text produced with the `(",", ":")` separators — which contains no
whitespace when the embedded strings contain none — and the remaining
scalar arguments are emitted literally; each argument contributes the
literal `name=value` fragment. -/
theorem query_string_serialization (b : Bool) (k : Int) (s t : String) (xs : List PyVal)
    (hsf : listSpaceFree xs = true) (hok : dumpsStr (.vlist xs) = .ok t) :
    serializeArg (.vbool b) = .ok (if b then "1" else "0") ∧
    serializeArg (.vlist xs) = .ok t ∧
    hasSpace t = false ∧
    serializeArg (.vint k) = .ok (toString k) ∧
    serializeArg (.vstr s) = .ok s ∧
    (∀ (n : String) (v : PyVal) (rest : List (String × PyVal)) (sv : String)
      (srest : List String), serializeArg v = .ok sv → buildArgStrings rest = .ok srest →
      buildArgStrings ((n, v) :: rest) = .ok ((n ++ "=" ++ sv) :: srest)) := by
  refine ⟨?_, hok, ?_, ?_, rfl, ?_⟩
  · cases b <;> simp only [serializeArg, pyStr, pyRepr] <;> rfl
  · exact dumpsStr_noSpace (.vlist xs) t (by simpa [valSpaceFree] using hsf) hok
  · simp only [serializeArg, pyStr, pyRepr]
  · intro n v rest sv srest hv hrest
    simp only [buildArgStrings] at hrest ⊢
    rw [List.mapM_cons, hrest]
    simp [hv, bind, Except.bind, pure, Except.pure]

/-- C10 (witness): concrete values — a boolean serializes as `1`, the list
`["ab", 3]` serializes as the compact, whitespace-free JSON text
`["ab",3]`, and the argument fragment is the literal `name=value`. -/
theorem query_string_serialization_witness :
    serializeArg (.vbool true) = .ok "1" ∧
    serializeArg (.vlist [.vstr "ab", .vint 3]) = .ok "[\"ab\",3]" ∧
    hasSpace "[\"ab\",3]" = false ∧
    buildArgStrings [("filters", .vlist [.vstr "ab", .vint 3])] =
      .ok ["filters" ++ "=" ++ "[\"ab\",3]"] := by
  have h1 : hasSpace "ab" = false := by decide
  have hsf : listSpaceFree [PyVal.vstr "ab", PyVal.vint 3] = true := by
    simp [listSpaceFree, valSpaceFree, h1]
  have hok : dumpsStr (.vlist [PyVal.vstr "ab", PyVal.vint 3]) = .ok "[\"ab\",3]" := by
    simp only [dumpsStr, dumpsList, bind, Except.bind]
    rfl
  have h := query_string_serialization true 3 "x" "[\"ab\",3]"
    [PyVal.vstr "ab", PyVal.vint 3] hsf hok
  exact ⟨h.1, h.2.1, h.2.2.1,
    h.2.2.2.2.2 "filters" (.vlist [.vstr "ab", .vint 3]) [] "[\"ab\",3]" [] h.2.1 rfl⟩
